import Mathlib

/- Verification development for the Data-Validation-and-Data-Contracts
repository: shallow embedding of the browser dashboards (app.js and the
actuator dashboard), the admin schema builder, and the spec-level
validation/routing core, together with theorems about the frozen claims. -/

namespace DataValidation

/- ### JSON values

Model of the JavaScript JSON data universe. Numbers are modelled as
integers; none of the verified properties inspects fractional values. -/

inductive Json where
  | null
  | bool (b : Bool)
  | num (n : Int)
  | str (s : String)
  | arr (items : List Json)
  | obj (fields : List (String × Json))

/-- Property read on a JS object: data.k is the field value when data is an
object with that key, and undefined (here: none) otherwise. Property reads
on JS null throw; callers model that case separately. -/
def Json.getField : Json → String → Option Json
  | Json.obj fs, k => List.lookup k fs
  | _, _ => none

/-- JS truthiness of a JSON value: null, false, 0 and the empty string are
falsy; arrays and objects (even empty ones) are truthy. -/
def jsTruthy : Json → Bool
  | Json.null => false
  | Json.bool b => b
  | Json.num n => n != 0
  | Json.str s => s != ""
  | Json.arr _ => true
  | Json.obj _ => true

/-- Truthiness of a possibly-undefined value (undefined is falsy). -/
def jsTruthyOpt : Option Json → Bool
  | none => false
  | some j => jsTruthy j

/-- JS string coercion, as used when dataset values are assembled. Arrays
and objects only occur in display strings never inspected by any claim, so
their coercion is coarse. -/
def jsStringOf : Json → String
  | Json.str s => s
  | Json.num n => toString n
  | Json.bool b => if b then "true" else "false"
  | Json.null => "null"
  | Json.arr _ => ""
  | Json.obj _ => "[object Object]"

/-- The one JS runtime error class the dashboards can raise on a message:
a TypeError from a property access or method call on an unsuitable value. -/
inductive JsError where
  | typeError
deriving DecidableEq

/- ### String helpers mirroring the JS string API -/

/-- Prefix test on character lists. -/
def listStartsWith : List Char → List Char → Bool
  | [], _ => true
  | _ :: _, [] => false
  | c :: cs, d :: ds => c == d && listStartsWith cs ds

/-- Substring containment on character lists. -/
def listHasInfix (needle : List Char) : List Char → Bool
  | [] => needle.isEmpty
  | c :: cs => listStartsWith needle (c :: cs) || listHasInfix needle cs

/-- The JS expression s.includes(sub): substring containment. -/
def jsIncludes (s sub : String) : Bool :=
  listHasInfix sub.data s.data

/- ### Dashboard statistics and cards -/

/-- The stats counters of every dashboard variant (app.js line 29). -/
structure Stats where
  total : Nat
  validated : Nat
  failed : Nat
deriving DecidableEq

/-- Initial stats: total 0, validated 0, failed 0. -/
def Stats.init : Stats := { total := 0, validated := 0, failed := 0 }

/-- Stats update performed at the top of createMessageCard (app.js lines
112 to 116): total is incremented, and exactly one of validated and failed
is incremented according to the computed status. -/
def bumpStats (stats : Stats) (status : String) : Stats :=
  { total := stats.total + 1
    validated := if status == "validated" then stats.validated + 1 else stats.validated
    failed := if status == "validated" then stats.failed else stats.failed + 1 }

/- ### The sensor dashboard, src/app.js -/

/-- Topic classification of the sensor dashboard (app.js line 109):
validated iff the topic string contains the substring validated. -/
def statusOfTopicV1 (topic : String) : String :=
  if jsIncludes topic "validated" then "validated" else "failed"

/-- Sensor id extraction (app.js line 110): second component of the
slash-split topic, with the JS falsy fallback to unknown (a missing or
empty component is falsy). -/
def sensorIdOfTopic (topic : String) : String :=
  let part := (topic.splitOn "/").getD 1 ""
  if part == "" then "unknown" else part

/-- The substitute data object installed by the catch branch when
JSON.parse fails (app.js line 123). -/
def substituteData (msg : String) : Json :=
  Json.obj [("error", Json.str "The incoming message is not in JSON format."),
            ("content", Json.str msg)]

/-- The entries of the errors field of a payload, when that field is
present and is an array; otherwise the empty list. -/
def errorsEntries (data : Json) : List Json :=
  match data.getField "errors" with
  | some (Json.arr es) => es
  | _ => []

/-- Evaluation of e.error_type for one element of data.errors (app.js line
143): a property read on null throws a TypeError; on any other non-object
value it yields undefined (rendered later as the string undefined). -/
def errorTypeOfEntry : Json → Except JsError String
  | Json.null => Except.error JsError.typeError
  | Json.obj fs =>
      Except.ok (match List.lookup "error_type" fs with
                 | some j => jsStringOf j
                 | none => "undefined")
  | _ => Except.ok "undefined"

/-- The dataset.errorTypes attribute computed in createMessageCard (app.js
lines 142 to 145, identically part_002 lines 214 to 220): set only when the
status is failed and data.errors is truthy; data.errors.map throws a
TypeError when data.errors is truthy but not an array, and e.error_type
throws on a null element. The JS Set keeps first occurrences in insertion
order; join uses a single space. -/
def errorTypesDataset (status : String) (data : Json) :
    Except JsError (Option String) :=
  if status == "failed" && jsTruthyOpt (data.getField "errors") then
    match data.getField "errors" with
    | some (Json.arr es) =>
        match es.mapM errorTypeOfEntry with
        | Except.error e => Except.error e
        | Except.ok types =>
            Except.ok (some (String.intercalate " " types.eraseDups))
    | _ => Except.error JsError.typeError
  else
    Except.ok none

/-- One message card of the sensor dashboard. -/
structure CardV1 where
  topic : String
  status : String
  sensorId : String
  timestamp : String
  data : Json
  errorTypes : Option String

/-- The dashboard state touched by createMessageCard and the clear-log
handler: the stats counters and the stored message cards. -/
structure StateV1 where
  stats : Stats
  messages : List CardV1

/-- Initial dashboard state. -/
def StateV1.init : StateV1 := { stats := Stats.init, messages := [] }

/-- The card timestamp (app.js line 131): data.timestamp when truthy,
otherwise the current ISO time (passed in as now). The caller has already
ruled out data being null, because the property read throws there. -/
def timestampOf (data : Json) (now : String) : String :=
  match data.getField "timestamp" with
  | some j => if jsTruthy j then jsStringOf j else now
  | none => now

/-- createMessageCard of the sensor dashboard (app.js lines 107 to 219),
with JSON.parse abstracted as the parse argument (none models a parse
exception, caught by the catch branch). Mutations are committed in source
order: the stats update precedes the parse; the card object literal reads
data.timestamp, which throws a TypeError when the parsed payload is JSON
null; the dataset.errorTypes block can throw on a malformed errors field.
A thrown TypeError escapes createMessageCard after the stats were already
updated and before the card is appended to allMessages. -/
def createMessageCardV1 (parse : String → Option Json) (now : String)
    (st : StateV1) (topic msg : String) : StateV1 × Except JsError CardV1 :=
  let status := statusOfTopicV1 topic
  let sensorId := sensorIdOfTopic topic
  let st1 : StateV1 := { st with stats := bumpStats st.stats status }
  let data := match parse msg with
    | some d => d
    | none => substituteData msg
  match data with
  | Json.null => (st1, Except.error JsError.typeError)
  | _ =>
    match errorTypesDataset status data with
    | Except.error e => (st1, Except.error e)
    | Except.ok et =>
        let card : CardV1 :=
          { topic := topic, status := status, sensorId := sensorId
            timestamp := timestampOf data now, data := data, errorTypes := et }
        ({ st1 with messages := card :: st1.messages }, Except.ok card)

/-- The clear-log click handler (app.js lines 304 to 311): empties the
message list and resets all three counters to zero. -/
def clearLogV1 (_st : StateV1) : StateV1 :=
  { stats := Stats.init, messages := [] }

/-- The card error types as read back by applyFilters (app.js line 239):
dataset.errorTypes split on spaces when present, the empty list otherwise. -/
def cardErrorTypeList (et : Option String) : List String :=
  match et with
  | some s => s.splitOn " "
  | none => []

/-- The per-card show/hide decision of applyFilters in the sensor dashboard
(app.js lines 233 to 249). Inputs are the checkbox-derived selections as
the source computes them; failedChecked is the dedicated failed status
checkbox read at line 228. Returns true when the card is shown (hidden
class removed). -/
def isCardShownV1 (selectedSensors selectedStatuses selectedErrorTypes : List String)
    (failedChecked : Bool) (card : CardV1) : Bool :=
  let isSensorMatch := selectedSensors.contains card.sensorId
  let isStatusMatch := selectedStatuses.contains card.status
  let isErrorTypeMatch :=
    if failedChecked && (card.status == "failed") then
      selectedErrorTypes.any (fun t => (cardErrorTypeList card.errorTypes).contains t)
    else true
  isSensorMatch && isStatusMatch && isErrorTypeMatch

/- ### The actuator dashboard, src/unnamed/part_002 -/

/-- One actuator mapping entry as served by the api actuator-mappings
endpoint (part_002 lines 429 to 451). The topic fields are optional and a
present-but-empty topic string is falsy in every JS guard reading it. -/
structure ActuatorMapping where
  actuatorId : String
  commandValidatedTopic : Option String
  commandFailedTopic : Option String
  statusValidatedTopic : Option String
  statusFailedTopic : Option String

/-- The list of truthy values of one optional topic field, matching the JS
pattern of guarding each field with an if before using it. -/
def truthyTopic (t : Option String) : List String :=
  match t with
  | some s => if s == "" then [] else [s]
  | none => []

/-- All four topics of one mapping entry, in the order the source pushes
them into topicsToSubscribe (part_002 lines 441 to 450). -/
def mappingTopics (m : ActuatorMapping) : List String :=
  truthyTopic m.commandValidatedTopic ++ truthyTopic m.commandFailedTopic ++
  truthyTopic m.statusValidatedTopic ++ truthyTopic m.statusFailedTopic

/-- The configuration-derived part of the actuator dashboard state:
validated-topic sets, the topic-to-actuator map and the subscription list,
exactly the structures rebuilt by initializeApp. -/
structure ConfigState where
  validatedTopics : List String
  commandValidatedTopics : List String
  statusValidatedTopics : List String
  topicToSourceMap : List (String × String)
  topicsToSubscribe : List String

/-- The empty configuration present before the first fetch. -/
def ConfigState.empty : ConfigState :=
  { validatedTopics := [], commandValidatedTopics := [], statusValidatedTopics := []
    topicToSourceMap := [], topicsToSubscribe := [] }

/-- The configuration state built by one pass of initializeApp over the
fetched mappings (part_002 lines 423 to 451): the old sets are cleared and
rebuilt from scratch, every truthy validated topic joins validatedTopics
and its kind-specific set, and every truthy topic is mapped back to its
actuator id and subscribed. -/
def configOfMappings (ms : List ActuatorMapping) : ConfigState :=
  { validatedTopics := ms.flatMap (fun m =>
      truthyTopic m.commandValidatedTopic ++ truthyTopic m.statusValidatedTopic)
    commandValidatedTopics := ms.flatMap (fun m => truthyTopic m.commandValidatedTopic)
    statusValidatedTopics := ms.flatMap (fun m => truthyTopic m.statusValidatedTopic)
    topicToSourceMap := ms.flatMap (fun m => (mappingTopics m).map (fun t => (t, m.actuatorId)))
    topicsToSubscribe := ms.flatMap mappingTopics }

/-- initializeApp as a state transformer on the configuration state: the
previous configuration is discarded wholesale and replaced by the one
derived from the freshly fetched mappings. -/
def initializeAppConfig (_old : ConfigState) (fetched : List ActuatorMapping) :
    ConfigState :=
  configOfMappings fetched

/-- The websocket message handler guard (part_002 lines 494 to 500):
re-initialization is triggered exactly when the event payload is the
config updated signal. -/
def wsTriggersReinit (eventData : String) : Bool :=
  eventData == "config_updated"

/-- The full websocket message handler: on the config updated signal the
dashboard re-fetches the mappings and rebuilds its configuration;
any other event leaves the configuration untouched. -/
def handleWsMessage (st : ConfigState) (eventData : String)
    (fetched : List ActuatorMapping) : ConfigState :=
  if wsTriggersReinit eventData then initializeAppConfig st fetched else st

/-- Topic classification of the actuator and V2 dashboards (part_002 line
163, V2 app.js line 117): validated iff the topic is a member of the
configured validated-topic set. -/
def statusOfTopicSet (validatedTopics : List String) (topic : String) : String :=
  if validatedTopics.contains topic then "validated" else "failed"

/-- One message card of the actuator dashboard. -/
structure CardP2 where
  topic : String
  status : String
  messageTypeClass : String
  actuatorId : String
  sourceTopic : String
  timestamp : String
  data : Json
  errorTypes : Option String

/-- The actuator dashboard state: stats, stored cards, and the dynamically
grown error-type filter checkboxes (value and checked flag, in creation
order), maintained by updateErrorTypeFilters. -/
structure StateP2 where
  stats : Stats
  messages : List CardP2
  errorTypeBoxes : List (String × Bool)

/-- Initial actuator dashboard state. -/
def StateP2.init : StateP2 := { stats := Stats.init, messages := [], errorTypeBoxes := [] }

/-- updateErrorTypeFilters (part_002 lines 58 to 82): every error type not
yet known gets a new checkbox, checked by default, appended in order. -/
def updateErrorTypeFilters (boxes : List (String × Bool)) (newTypes : List String) :
    List (String × Bool) :=
  newTypes.foldl (fun acc t =>
    if (acc.map Prod.fst).contains t then acc else acc ++ [(t, true)]) boxes

/-- The messageTypeClass styling tag (part_002 lines 165 to 174). -/
def messageTypeClassOf (cfg : ConfigState) (topic status : String) : String :=
  if status == "validated" then
    if cfg.commandValidatedTopics.contains topic then "validated-command"
    else if cfg.statusValidatedTopics.contains topic then "validated-status"
    else status
  else status

/-- The sourceTopic of a card (part_002 line 178): the mapped actuator id
with the JS falsy fallback to unknown source. -/
def sourceTopicOf (cfg : ConfigState) (topic : String) : String :=
  match List.lookup topic cfg.topicToSourceMap with
  | some s => if s == "" then "unknown_source" else s
  | none => "unknown_source"

/-- The try block of the actuator createMessageCard (part_002 lines 186 to
194): JSON.parse, then actuatorId is read from data.actuator_id inside the
same try, so a parsed JSON null throws there and is caught, installing the
substitute object while actuatorId keeps its fallback value. Returns the
data object and the actuator id. -/
def parsedDataP2 (parse : String → Option Json) (msg : String) : Json × String :=
  match parse msg with
  | none => (substituteData msg, "unknown")
  | some Json.null => (substituteData msg, "unknown")
  | some d =>
      let aid := match d.getField "actuator_id" with
        | some j => if jsTruthy j then jsStringOf j else "unknown"
        | none => "unknown"
      (d, aid)

/-- createMessageCard of the actuator dashboard (part_002 lines 160 to
305). Status comes from the validated-topic set; the stats update precedes
the parse; the substitute object is installed when JSON.parse throws or
when the subsequent property read on a parsed null throws inside the try;
the dataset.errorTypes block (lines 214 to 220) runs outside any try and
throws a TypeError on a truthy non-array errors field or a null errors
entry, escaping after the stats were updated and before the card is stored
or the filters are extended. -/
def createMessageCardP2 (parse : String → Option Json) (now : String)
    (cfg : ConfigState) (st : StateP2) (topic msg : String) :
    StateP2 × Except JsError CardP2 :=
  let status := statusOfTopicSet cfg.validatedTopics topic
  let mtc := messageTypeClassOf cfg topic status
  let srcTopic := sourceTopicOf cfg topic
  let st1 : StateP2 := { st with stats := bumpStats st.stats status }
  let pd := parsedDataP2 parse msg
  let data := pd.fst
  match errorTypesDataset status data with
  | Except.error e => (st1, Except.error e)
  | Except.ok et =>
      let card : CardP2 :=
        { topic := topic, status := status, messageTypeClass := mtc
          actuatorId := pd.snd, sourceTopic := srcTopic
          timestamp := timestampOf data now, data := data, errorTypes := et }
      let boxes := match et with
        | some _ =>
            updateErrorTypeFilters st.errorTypeBoxes
              ((errorsEntries data).filterMap (fun e =>
                 match errorTypeOfEntry e with
                 | Except.ok t => some t
                 | Except.error _ => none)).eraseDups
        | none => st.errorTypeBoxes
      ({ st1 with messages := card :: st1.messages, errorTypeBoxes := boxes },
       Except.ok card)

/-- The clear-log click handler of the actuator dashboard (part_002 lines
523 to 530). -/
def clearLogP2 (st : StateP2) : StateP2 :=
  { stats := Stats.init, messages := [], errorTypeBoxes := st.errorTypeBoxes }

/-- The per-card show/hide decision of applyFilters in the actuator
dashboard (part_002 lines 310 to 341). Differences from the sensor
dashboard: the failed filter is active iff failed is among the selected
statuses, and an empty error-type selection matches nothing. -/
def isCardShownP2 (selectedSourceTopics selectedStatuses selectedErrorTypes : List String)
    (card : CardP2) : Bool :=
  let isFailedFilterActive := selectedStatuses.contains "failed"
  let isSourceTopicMatch := selectedSourceTopics.contains card.sourceTopic
  let isStatusMatch := selectedStatuses.contains card.status
  let isErrorTypeMatch :=
    if isFailedFilterActive && (card.status == "failed") then
      if selectedErrorTypes.isEmpty then false
      else selectedErrorTypes.any (fun t => (cardErrorTypeList card.errorTypes).contains t)
    else true
  isSourceTopicMatch && isStatusMatch && isErrorTypeMatch

/- ### The MQTT connection state machines -/

/-- The transport client as the dashboards see it: the UI status string
(set through updateConnectionStatus) and whether client.end() has been
called. In mqtt.js, end() tears the client down and disables the automatic
reconnect machinery, so an ended client emits no further events. -/
structure MqttClientV1 where
  uiStatus : String
  ended : Bool
deriving DecidableEq

/-- Transport events delivered by the mqtt.js client. -/
inductive MqttEvent where
  | connectEv
  | messageEv
  | errorEv
  | closeEv
  | reconnectEv

/-- Event handlers installed by connectToBroker in src/app.js (lines 259
to 295). The error handler sets the error status and then calls
client.end() (line 283), ending the client. An ended client delivers no
further events, so the state is absorbing. -/
def stepClientV1 (s : MqttClientV1) (e : MqttEvent) : MqttClientV1 :=
  if s.ended then s
  else match e with
    | MqttEvent.connectEv => { s with uiStatus := "connected" }
    | MqttEvent.messageEv => s
    | MqttEvent.errorEv => { uiStatus := "error", ended := true }
    | MqttEvent.closeEv =>
        if s.uiStatus == "connected" then { s with uiStatus := "disconnected" } else s
    | MqttEvent.reconnectEv => { s with uiStatus := "connecting" }

/-- Event handlers installed by connectToBroker in part_002 (lines 346 to
390): identical except that the error handler no longer calls client.end()
(the call is commented out at line 377), leaving the library free to run
its automatic reconnect. -/
def stepClientP2 (s : MqttClientV1) (e : MqttEvent) : MqttClientV1 :=
  if s.ended then s
  else match e with
    | MqttEvent.connectEv => { s with uiStatus := "connected" }
    | MqttEvent.messageEv => s
    | MqttEvent.errorEv => { s with uiStatus := "error" }
    | MqttEvent.closeEv =>
        if s.uiStatus == "connected" then { s with uiStatus := "disconnected" } else s
    | MqttEvent.reconnectEv => { s with uiStatus := "connecting" }

/-- Running a whole event trace through the src/app.js handlers. -/
def runClientV1 (s : MqttClientV1) (es : List MqttEvent) : MqttClientV1 :=
  es.foldl stepClientV1 s

/- ### The admin schema builder check-value parser
(Data_Validation_Project_last_version/static/admin.js lines 88 to 109,
identical in actuator_admin.js) -/

/-- The quote characters stripped by the replace call. -/
def isQuoteChar (c : Char) : Bool :=
  c == '"' || c == (Char.ofNat 39)

/-- The JS replace with the regex anchored at start or end and the global
flag: removes one leading and one trailing quote character. -/
def stripOuterQuotes (s : String) : String :=
  let cs := s.data
  let cs1 := match cs with
    | c :: rest => if isQuoteChar c then rest else cs
    | [] => []
  let cs2 := match cs1.reverse with
    | c :: rest => if isQuoteChar c then rest.reverse else cs1
    | [] => []
  String.mk cs2

/-- One element of the comma-separated fallback (admin.js lines 100 to
108): trim, convert to a number when the trimmed text is numeric and
nonempty, otherwise strip surrounding quotes. The JS Number coercion is
abstracted as the toNum argument, defined exactly when isNaN is false. -/
def commaElement (toNum : String → Option Int) (s : String) : Json :=
  let trimmed := s.trim
  match toNum trimmed, trimmed == "" with
  | some n, false => Json.num n
  | _, _ => Json.str (stripOuterQuotes trimmed)

/-- The comma-separated fallback stage: split on commas and coerce each
piece. Splitting never fails, so this stage is total. -/
def commaStage (toNum : String → Option Int) (value : String) : List Json :=
  (value.splitOn ",").map (commaElement toNum)

/-- The two-stage check-value parser for isin and notin checks in
buildSchemaJsonFromForm (admin.js lines 88 to 109): first JSON.parse
(abstracted as the parse argument); a parsed array is used as is, any
other parsed value is wrapped as a single-element list; when the JSON
stage throws, the comma-separated fallback runs. -/
def parseCheckValueList (parse : String → Option Json) (toNum : String → Option Int)
    (value : String) : Json :=
  match parse value with
  | some (Json.arr items) => Json.arr items
  | some j => Json.arr [j]
  | none => Json.arr (commaStage toNum value)

/- ### The validation core, modelled from the spec

The validator, routing engine and configuration reloader of the backend
are not among the provided sources (only the dashboards, the admin UI and
the documentation are), so the definitions below are modelled from the
specification text of sections 4.1, 4.2 and 4.4. -/

/-- Modelled from the spec: the violation kinds of the severity ranking of
section 4.2. The spec's check-failed family carries the concrete check
kind. -/
inductive VKind where
  | wrongType
  | missingField
  | nullValue
  | mismatchedId
  | outOfRange
  | checkFailed (check : String)
  | unexpectedField
  | badFormat
deriving DecidableEq

/-- Modelled from the spec: the fixed severity ranking, most actionable
first: wrong_type before missing_field before null_value before
mismatched_id before out_of_range and check_failed (one shared level)
before unexpected_field before bad_format. -/
def severityRank : VKind → Nat
  | VKind.wrongType => 0
  | VKind.missingField => 1
  | VKind.nullValue => 2
  | VKind.mismatchedId => 3
  | VKind.outOfRange => 4
  | VKind.checkFailed _ => 4
  | VKind.unexpectedField => 5
  | VKind.badFormat => 6

/-- Modelled from the spec: one violation of a validation outcome, carrying
the offending field and its kind. -/
structure Violation where
  field : String
  kind : VKind
deriving DecidableEq

/-- The severity comparison used to sort a violation list. -/
def severityLeP (a b : Violation) : Prop :=
  severityRank a.kind ≤ severityRank b.kind

instance : DecidableRel severityLeP :=
  fun a b => Nat.decLe (severityRank a.kind) (severityRank b.kind)

instance : IsTotal Violation severityLeP :=
  ⟨fun a b => Nat.le_total (severityRank a.kind) (severityRank b.kind)⟩

instance : IsTrans Violation severityLeP :=
  ⟨fun _ _ _ hab hbc => Nat.le_trans hab hbc⟩

/-- Modelled from the spec: the final sorting pass of the Message
Validator, a stable sort of the violation list by severity rank. -/
def sortViolations (vs : List Violation) : List Violation :=
  List.insertionSort severityLeP vs

/-- Modelled from the spec, section 4.1: a field specification document of
a contract document. -/
structure FieldSpecDoc where
  dtype : String
  nullable : Bool
  unique : Bool
  checks : List (String × Json)

/-- Modelled from the spec, section 4.1: a declarative contract document. -/
structure ContractDoc where
  strict : Bool
  ordered : Bool
  coerce : Bool
  columns : List (String × FieldSpecDoc)

/-- Modelled from the spec: the dtype enumeration. -/
inductive Dtype where
  | dtString
  | dtInteger
  | dtFloat
  | dtBoolean
  | dtDatetime
deriving DecidableEq

/-- Modelled from the spec: a compiled field specification. -/
structure FieldSpec where
  dtype : Dtype
  nullable : Bool
  unique : Bool
  checks : List (String × Json)

/-- Modelled from the spec: a compiled, immutable contract. -/
structure Contract where
  strict : Bool
  ordered : Bool
  coerce : Bool
  fields : List (String × FieldSpec)

/-- Modelled from the spec: a compile error names the offending field and
a reason. -/
structure CompileError where
  field : String
  reason : String

/-- Modelled from the spec: recognition of the dtype tokens. -/
def parseDtype : String → Option Dtype
  | "string" => some Dtype.dtString
  | "integer" => some Dtype.dtInteger
  | "float" => some Dtype.dtFloat
  | "boolean" => some Dtype.dtBoolean
  | "datetime" => some Dtype.dtDatetime
  | _ => none

/-- First duplicated name in a list, if any. -/
def firstDuplicate : List String → Option String
  | [] => none
  | n :: rest => if rest.contains n then some n else firstDuplicate rest

/-- Modelled from the spec: compilation of the column list, rejecting
unknown dtype tokens. -/
def compileColumns : List (String × FieldSpecDoc) →
    Except CompileError (List (String × FieldSpec))
  | [] => Except.ok []
  | (n, f) :: rest =>
      match parseDtype f.dtype with
      | none => Except.error { field := n, reason := "unknown dtype token" }
      | some dt =>
          match compileColumns rest with
          | Except.error e => Except.error e
          | Except.ok tail =>
              Except.ok ((n, { dtype := dt, nullable := f.nullable
                               unique := f.unique, checks := f.checks }) :: tail)

/-- Modelled from the spec, section 4.1: compile parses a contract
document, rejecting duplicate field names and unknown dtype tokens; it is
pure and side-effect free. -/
def compileContract (doc : ContractDoc) : Except CompileError Contract :=
  match firstDuplicate (doc.columns.map Prod.fst) with
  | some n => Except.error { field := n, reason := "duplicate field name" }
  | none =>
      match compileColumns doc.columns with
      | Except.error e => Except.error e
      | Except.ok fs =>
          Except.ok { strict := doc.strict, ordered := doc.ordered
                      coerce := doc.coerce, fields := fs }

/-- Modelled from the spec, section 3: one mapping entry associates a
source with an inbound topic, accept and reject topics and a contract
reference by name. -/
structure MappingEntry where
  source : String
  inboundTopic : String
  acceptTopic : String
  rejectTopic : String
  contractName : String
deriving DecidableEq

/-- Modelled from the spec: the immutable active snapshot owned by the
Routing Engine, bundling the Mapping Table with the compiled contracts. -/
structure Snapshot where
  table : List MappingEntry
  contracts : List (String × Contract)

/-- Modelled from the spec, section 4.4 step 1: compile every referenced
contract, aborting on the first dangling reference or compile failure. -/
def compileReferenced (cdocs : List (String × ContractDoc)) :
    List String → Except CompileError (List (String × Contract))
  | [] => Except.ok []
  | n :: rest =>
      match List.lookup n cdocs with
      | none => Except.error { field := n, reason := "unknown contract reference" }
      | some d =>
          match compileContract d with
          | Except.error e => Except.error e
          | Except.ok c =>
              match compileReferenced cdocs rest with
              | Except.error e => Except.error e
              | Except.ok tail => Except.ok ((n, c) :: tail)

/-- Whether one contract reference fails to resolve and compile. -/
def referenceFails (cdocs : List (String × ContractDoc)) (n : String) : Bool :=
  match List.lookup n cdocs with
  | none => true
  | some d =>
      match compileContract d with
      | Except.error _ => true
      | Except.ok _ => false

/-- Modelled from the spec, section 4.4: reload compiles all referenced
contracts and aborts the whole reload with no partial application when any
fails; only on success is a new immutable snapshot built and swapped in.
The result pairs the reload outcome with the live snapshot after the
operation. -/
def reloadEngine (mdoc : List MappingEntry) (cdocs : List (String × ContractDoc))
    (live : Snapshot) : Except CompileError Snapshot × Snapshot :=
  match compileReferenced cdocs (mdoc.map MappingEntry.contractName) with
  | Except.error e => (Except.error e, live)
  | Except.ok cs =>
      let snap : Snapshot := { table := mdoc, contracts := cs }
      (Except.ok snap, snap)

/- ### Concrete JSON.parse behaviors used to evaluate the code at
specific inputs. Each one records the real result of JSON.parse on the
one payload text it is applied to. -/

/-- JSON.parse restricted to the payload text null, on which it succeeds
with the JSON null value. -/
def parseOfNullText : String → Option Json :=
  fun s => if s == "null" then some Json.null else none

/-- JSON.parse restricted to the payload text with an errors field holding
the number 1, on which it succeeds with that object. -/
def parseOfErrorsNumText : String → Option Json :=
  fun s => if s == "\x7b\"errors\": 1\x7d" then some (Json.obj [("errors", Json.num 1)]) else none

/-- A parse that throws on every input, modelling JSON.parse applied to a
payload that is not JSON at all. -/
def parseFailsAlways : String → Option Json :=
  fun _ => none

/- ### Concrete reload scenario: three referenced contracts, one invalid -/

/-- A well-formed contract document. -/
def exampleGoodDoc : ContractDoc :=
  { strict := true, ordered := false, coerce := true
    columns := [("id", { dtype := "string", nullable := false, unique := false, checks := [] }),
                ("temp", { dtype := "float", nullable := true, unique := false, checks := [] })] }

/-- A contract document with an unknown dtype token, which compilation
rejects. -/
def exampleBadDoc : ContractDoc :=
  { strict := true, ordered := false, coerce := true
    columns := [("id", { dtype := "text", nullable := false, unique := false, checks := [] })] }

/-- Three mapping entries referencing three contracts. -/
def exampleMappings : List MappingEntry :=
  [{ source := "s1", inboundTopic := "/s1", acceptTopic := "/s1/validated"
     rejectTopic := "/s1/failed", contractName := "c1" },
   { source := "s2", inboundTopic := "/s2", acceptTopic := "/s2/validated"
     rejectTopic := "/s2/failed", contractName := "c2" },
   { source := "s3", inboundTopic := "/s3", acceptTopic := "/s3/validated"
     rejectTopic := "/s3/failed", contractName := "c3" }]

/-- The contract store documents: the middle referenced contract is
invalid. -/
def exampleContractDocs : List (String × ContractDoc) :=
  [("c1", exampleGoodDoc), ("c2", exampleBadDoc), ("c3", exampleGoodDoc)]

/-- The live snapshot in place before the failed reload attempt. -/
def exampleLiveSnapshot : Snapshot :=
  { table := [{ source := "s1", inboundTopic := "/s1", acceptTopic := "/s1/ok"
                rejectTopic := "/s1/bad", contractName := "c0" }]
    contracts := [] }

/- ### Theorems -/

/-- Helper: the stats of the state returned by the sensor dashboard's
createMessageCard are always the bumped stats, whether or not the card
construction later throws. -/
theorem createMessageCardV1_stats (parse : String → Option Json) (now : String)
    (st : StateV1) (topic msg : String) :
    ((createMessageCardV1 parse now st topic msg).fst).stats
      = bumpStats st.stats (statusOfTopicV1 topic) := by
  unfold createMessageCardV1
  dsimp only
  split
  · rfl
  · split
    · rfl
    · rfl

/-- Helper: the stats of the state returned by the actuator dashboard's
createMessageCard are always the bumped stats. -/
theorem createMessageCardP2_stats (parse : String → Option Json) (now : String)
    (cfg : ConfigState) (st : StateP2) (topic msg : String) :
    ((createMessageCardP2 parse now cfg st topic msg).fst).stats
      = bumpStats st.stats (statusOfTopicSet cfg.validatedTopics topic) := by
  unfold createMessageCardP2
  dsimp only
  split
  · rfl
  · rfl

/-- Helper: an ended client stays in exactly the same state under every
further event trace, since client.end() disables the event machinery. -/
theorem runClientV1_of_ended (es : List MqttEvent) (s : MqttClientV1)
    (h : s.ended = true) : runClientV1 s es = s := by
  induction es with
  | nil => rfl
  | cons e es ih =>
      have hstep : stepClientV1 s e = s := by
        unfold stepClientV1
        simp [h]
      show runClientV1 (stepClientV1 s e) es = s
      rw [hstep]
      exact ih

/-- Claim C1, divergence witnessed on the code: the sensor dashboard's
createMessageCard is not total over byte payloads. On the payload text
null, JSON.parse succeeds with JSON null (so the catch branch does not
run) and the subsequent data.timestamp property read throws a TypeError:
the message is counted but no card is produced. On a payload whose errors
field is the number 1, received on a failed-classified topic, both the
sensor and the actuator dashboards throw a TypeError at data.errors.map.
A genuinely non-parseable payload, by contrast, is caught and substituted. -/
theorem createMessageCard_not_total :
    (createMessageCardV1 parseOfNullText "t0" StateV1.init "/sensor1/validated" "null").snd
      = Except.error JsError.typeError ∧
    (createMessageCardV1 parseOfNullText "t0" StateV1.init "/sensor1/validated" "null").fst.stats
      = { total := 1, validated := 1, failed := 0 } ∧
    (createMessageCardV1 parseOfErrorsNumText "t0" StateV1.init "/sensor1/failed"
        "\x7b\"errors\": 1\x7d").snd = Except.error JsError.typeError ∧
    (createMessageCardP2 parseOfErrorsNumText "t0" ConfigState.empty StateP2.init
        "/actuator1/cmd" "\x7b\"errors\": 1\x7d").snd = Except.error JsError.typeError ∧
    (createMessageCardV1 parseFailsAlways "t0" StateV1.init "/sensor1/validated"
        "not json").snd.isOk = true := by
  refine ⟨rfl, rfl, rfl, rfl, rfl⟩

/-- Claim C2, counterexample: for a non-parseable payload on a failed
topic the sensor dashboard's substitute record carries zero errors
entries, not exactly one bad_format entry as claimed: its data object has
no errors array at all. -/
theorem substitute_card_errors_count :
    ((createMessageCardV1 parseFailsAlways "t0" StateV1.init "/sensor1/failed" "hello").snd.map
        (fun c => (errorsEntries c.data).length)) = Except.ok 0 ∧
    ¬ ((createMessageCardV1 parseFailsAlways "t0" StateV1.init "/sensor1/failed" "hello").snd.map
        (fun c => (errorsEntries c.data).length)) = Except.ok 1 := by
  constructor
  · rfl
  · intro h
    rw [show ((createMessageCardV1 parseFailsAlways "t0" StateV1.init "/sensor1/failed"
        "hello").snd.map (fun c => (errorsEntries c.data).length)) = Except.ok 0 from rfl] at h
    exact absurd (Except.ok.inj h) (by decide)

/-- Claim C2, amended: for every non-parseable payload the dashboard still
produces and counts a card, whose data is the substitute object holding an
error message and the original content; that object carries no errors
array, hence zero violation entries of any kind and an empty error-type
dataset. -/
theorem substitute_card_shape (parse : String → Option Json) (now : String)
    (st : StateV1) (topic msg : String) (h : parse msg = none) :
    ∃ card, (createMessageCardV1 parse now st topic msg).snd = Except.ok card ∧
      card.data = substituteData msg ∧
      errorsEntries card.data = [] ∧
      card.errorTypes = none ∧
      (createMessageCardV1 parse now st topic msg).fst.stats.total = st.stats.total + 1 := by
  have hets : ∀ status, errorTypesDataset status (substituteData msg) = Except.ok none := by
    intro status
    unfold errorTypesDataset
    rw [show (substituteData msg).getField "errors" = none from rfl]
    simp [jsTruthyOpt]
  unfold createMessageCardV1
  rw [h]
  dsimp only
  split
  · rename_i heq
    exact absurd heq (by unfold substituteData; exact fun hc => Json.noConfusion hc)
  · rw [hets (statusOfTopicV1 topic)]
    exact ⟨_, rfl, rfl, rfl, rfl, rfl⟩

/-- Witness for the amended claim C2 at a concrete non-parseable payload. -/
theorem substitute_card_shape_witness :
    ∃ card, (createMessageCardV1 parseFailsAlways "t0" StateV1.init "/s/failed" "oops").snd
        = Except.ok card ∧
      card.data = substituteData "oops" ∧
      errorsEntries card.data = [] ∧
      card.errorTypes = none ∧
      (createMessageCardV1 parseFailsAlways "t0" StateV1.init "/s/failed" "oops").fst.stats.total
        = StateV1.init.stats.total + 1 :=
  substitute_card_shape parseFailsAlways "t0" StateV1.init "/s/failed" "oops" rfl

/-- Claim C4, divergence witnessed on the code: in src/app.js the error
handler calls client.end(), so after one transport error the client is
ended and no event trace can ever bring it back to the connecting state;
the actuator dashboard of part_002, which removed that call, leaves the
client alive after an error and the automatic reconnect then re-enters
connecting. -/
theorem errorHandler_ends_clientV1 :
    stepClientV1 { uiStatus := "connecting", ended := false } MqttEvent.errorEv
      = { uiStatus := "error", ended := true } ∧
    (∀ es : List MqttEvent,
      runClientV1 { uiStatus := "error", ended := true } es
        = { uiStatus := "error", ended := true }) ∧
    stepClientP2 { uiStatus := "connecting", ended := false } MqttEvent.errorEv
      = { uiStatus := "error", ended := false } ∧
    stepClientP2 { uiStatus := "error", ended := false } MqttEvent.reconnectEv
      = { uiStatus := "connecting", ended := false } := by
  refine ⟨rfl, ?_, rfl, rfl⟩
  intro es
  exact runClientV1_of_ended es _ rfl

/-- Claim C5: the check-value parser for isin and notin checks is an
explicit two-stage parse. For every input string exactly one of the three
source branches applies: the JSON stage yields an array used as is, the
JSON stage yields a non-array wrapped as a one-element list, or the JSON
stage fails and the comma-separated fallback yields the element list; in
every case the result is a list. The fallback stage is total, so the
both-stages-fail error case is unreachable. -/
theorem parseCheckValue_two_stage (parse : String → Option Json)
    (toNum : String → Option Int) (value : String) :
    (∃ items, parse value = some (Json.arr items) ∧
        parseCheckValueList parse toNum value = Json.arr items) ∨
    (∃ j, parse value = some j ∧ (∀ items, j ≠ Json.arr items) ∧
        parseCheckValueList parse toNum value = Json.arr [j]) ∨
    (parse value = none ∧
        parseCheckValueList parse toNum value = Json.arr (commaStage toNum value)) := by
  unfold parseCheckValueList
  cases h : parse value with
  | none => exact Or.inr (Or.inr ⟨rfl, rfl⟩)
  | some j =>
      cases j with
      | arr items => exact Or.inl ⟨items, rfl, rfl⟩
      | null => exact Or.inr (Or.inl ⟨Json.null, rfl, fun _ h => Json.noConfusion h, rfl⟩)
      | bool b => exact Or.inr (Or.inl ⟨Json.bool b, rfl, fun _ h => Json.noConfusion h, rfl⟩)
      | num n => exact Or.inr (Or.inl ⟨Json.num n, rfl, fun _ h => Json.noConfusion h, rfl⟩)
      | str s => exact Or.inr (Or.inl ⟨Json.str s, rfl, fun _ h => Json.noConfusion h, rfl⟩)
      | obj fs => exact Or.inr (Or.inl ⟨Json.obj fs, rfl, fun _ h => Json.noConfusion h, rfl⟩)

/-- Claim C7: the websocket handler of the actuator dashboard triggers
re-initialization exactly on the content-free config updated signal; on
that signal the previous configuration is discarded and replaced by one
derived entirely from the freshly fetched mappings, whose subscription
list is the topic set of those mappings; any other event leaves the
configuration untouched. -/
theorem wsHandler_reinit_iff :
    (∀ d : String, wsTriggersReinit d = true ↔ d = "config_updated") ∧
    (∀ (st : ConfigState) (fetched : List ActuatorMapping),
      handleWsMessage st "config_updated" fetched = configOfMappings fetched) ∧
    (∀ (st : ConfigState) (d : String) (fetched : List ActuatorMapping),
      d ≠ "config_updated" → handleWsMessage st d fetched = st) ∧
    (∀ fetched : List ActuatorMapping,
      (configOfMappings fetched).topicsToSubscribe = fetched.flatMap mappingTopics) := by
  refine ⟨?_, ?_, ?_, ?_⟩
  · intro d
    unfold wsTriggersReinit
    exact ⟨fun h => by exact_mod_cast (beq_iff_eq.mp h), fun h => by rw [h]; rfl⟩
  · intro st fetched
    rfl
  · intro st d fetched hne
    unfold handleWsMessage wsTriggersReinit
    simp [hne]
  · intro fetched
    rfl

/-- Witness for claim C7 at a concrete non-signal event. -/
theorem wsHandler_reinit_iff_witness :
    handleWsMessage ConfigState.empty "something_else" [] = ConfigState.empty :=
  wsHandler_reinit_iff.2.2.1 ConfigState.empty "something_else" [] (by decide)

/-- Claim C8, counterexample: the substring classification of the sensor
dashboard and the set-membership classification of the V2 and actuator
dashboards disagree at the topic /sensor1/validated when the configured
validated-topic set is empty: the former says validated, the latter
failed. -/
theorem topicStatus_embeddings_disagree :
    statusOfTopicV1 "/sensor1/validated" = "validated" ∧
    statusOfTopicSet [] "/sensor1/validated" = "failed" ∧
    statusOfTopicV1 "/sensor1/validated" ≠ statusOfTopicSet [] "/sensor1/validated" := by
  refine ⟨rfl, rfl, ?_⟩
  intro h
  rw [show statusOfTopicV1 "/sensor1/validated" = "validated" from rfl,
      show statusOfTopicSet [] "/sensor1/validated" = "failed" from rfl] at h
  exact absurd h (by decide)

/-- Claim C8, amended: the two topic-to-status classifications agree on a
topic exactly when membership of that topic in the configured
validated-topic set coincides with the topic containing the substring
validated; in general (for example an empty configured set and a topic
containing the substring) they differ. -/
theorem topicStatus_embeddings_agree_iff (vts : List String) (topic : String) :
    statusOfTopicSet vts topic = statusOfTopicV1 topic ↔
      vts.contains topic = jsIncludes topic "validated" := by
  unfold statusOfTopicSet statusOfTopicV1
  cases hm : vts.contains topic <;> cases hi : jsIncludes topic "validated" <;> simp

/-- Claim C9: the stats counters satisfy total equals validated plus
failed (all three natural numbers, hence non-negative) after every
operation touching them: both dashboards' createMessageCard increments
total and exactly one of validated and failed, even when card construction
later throws, because the counter update is committed first; and both
clear-log handlers reset the three counters to zero while emptying the
message list. -/
theorem stats_invariant_preserved (parse : String → Option Json) (now : String)
    (st : StateV1) (topic msg : String) (cfg : ConfigState) (stP : StateP2)
    (topicP msgP : String)
    (h1 : st.stats.total = st.stats.validated + st.stats.failed)
    (h2 : stP.stats.total = stP.stats.validated + stP.stats.failed) :
    (((createMessageCardV1 parse now st topic msg).fst).stats.total
        = ((createMessageCardV1 parse now st topic msg).fst).stats.validated
          + ((createMessageCardV1 parse now st topic msg).fst).stats.failed) ∧
    ((createMessageCardV1 parse now st topic msg).fst).stats.total = st.stats.total + 1 ∧
    ((((createMessageCardV1 parse now st topic msg).fst).stats.validated
        = st.stats.validated + 1 ∧
      ((createMessageCardV1 parse now st topic msg).fst).stats.failed = st.stats.failed) ∨
     (((createMessageCardV1 parse now st topic msg).fst).stats.validated
        = st.stats.validated ∧
      ((createMessageCardV1 parse now st topic msg).fst).stats.failed
        = st.stats.failed + 1)) ∧
    (((createMessageCardP2 parse now cfg stP topicP msgP).fst).stats.total
        = ((createMessageCardP2 parse now cfg stP topicP msgP).fst).stats.validated
          + ((createMessageCardP2 parse now cfg stP topicP msgP).fst).stats.failed) ∧
    ((createMessageCardP2 parse now cfg stP topicP msgP).fst).stats.total
        = stP.stats.total + 1 ∧
    clearLogV1 st = StateV1.init ∧
    (clearLogP2 stP).stats = Stats.init ∧
    (clearLogP2 stP).messages = [] := by
  rw [createMessageCardV1_stats parse now st topic msg,
      createMessageCardP2_stats parse now cfg stP topicP msgP]
  unfold bumpStats
  refine ⟨?_, rfl, ?_, ?_, rfl, rfl, rfl, rfl⟩
  · by_cases hv : statusOfTopicV1 topic == "validated" <;> simp [hv, h1] <;> omega
  · by_cases hv : statusOfTopicV1 topic == "validated" <;> simp [hv]
  · by_cases hv : statusOfTopicSet cfg.validatedTopics topicP == "validated" <;>
      simp [hv, h2] <;> omega

/-- Witness for claim C9 at the initial states. -/
theorem stats_invariant_preserved_witness :
    ((createMessageCardV1 parseFailsAlways "t0" StateV1.init "/s/validated" "m").fst.stats.total
        = (createMessageCardV1 parseFailsAlways "t0" StateV1.init "/s/validated"
            "m").fst.stats.validated
          + (createMessageCardV1 parseFailsAlways "t0" StateV1.init "/s/validated"
            "m").fst.stats.failed) ∧
    (createMessageCardV1 parseFailsAlways "t0" StateV1.init "/s/validated" "m").fst.stats.total
        = StateV1.init.stats.total + 1 :=
  have h := stats_invariant_preserved parseFailsAlways "t0" StateV1.init "/s/validated" "m"
    ConfigState.empty StateP2.init "/t" "m" rfl rfl
  ⟨h.1, h.2.1⟩

/-- Claim C10: in both dashboards, a failed card whose payload produced no
errors array (its error-type dataset is absent) is hidden by applyFilters
whenever the failed status filter is active, regardless of the sensor or
source selection and of which error-type checkboxes are selected: the
some-over-empty error-type match is false, so the conjunction is false. -/
theorem failed_card_without_errors_hidden
    (selSensors selStatuses selErrTypes : List String)
    (topic sid ts : String) (d : Json)
    (selSrc selStat selErr : List String)
    (topicP mtc aid srcT tsP : String) (dP : Json)
    (hfail : selStat.contains "failed" = true) :
    isCardShownV1 selSensors selStatuses selErrTypes true
      { topic := topic, status := "failed", sensorId := sid, timestamp := ts,
        data := d, errorTypes := none } = false ∧
    isCardShownP2 selSrc selStat selErr
      { topic := topicP, status := "failed", messageTypeClass := mtc,
        actuatorId := aid, sourceTopic := srcT, timestamp := tsP,
        data := dP, errorTypes := none } = false := by
  constructor
  · unfold isCardShownV1
    simp [cardErrorTypeList]
  · unfold isCardShownP2
    rcases selErr with _ | ⟨e, es⟩
    · simp [hfail]
    · simp [hfail, cardErrorTypeList]

/-- Witness for claim C10 at concrete filter selections and cards. -/
theorem failed_card_without_errors_hidden_witness :
    isCardShownV1 ["sensor1"] ["validated", "failed"] ["wrong_type"] true
      { topic := "/sensor1/failed", status := "failed", sensorId := "sensor1",
        timestamp := "t0", data := Json.null, errorTypes := none } = false ∧
    isCardShownP2 ["a1"] ["failed"] ["wrong_type"]
      { topic := "/a1/failed", status := "failed", messageTypeClass := "failed",
        actuatorId := "a1", sourceTopic := "a1", timestamp := "t0",
        data := Json.null, errorTypes := none } = false :=
  failed_card_without_errors_hidden ["sensor1"] ["validated", "failed"] ["wrong_type"]
    "/sensor1/failed" "sensor1" "t0" Json.null ["a1"] ["failed"] ["wrong_type"]
    "/a1/failed" "failed" "a1" "a1" "t0" Json.null rfl

/-- Claim C3: the violation list is sorted by the fixed severity ranking
(wrong_type, then missing_field, null_value, mismatched_id, the shared
out_of_range and check_failed level, unexpected_field, bad_format): the
sorted list is a permutation of the input, its severity ranks are
non-decreasing, violations of equal kind keep their original relative
order, and in particular a wrong_type violation is placed before a range
violation on another field. -/
theorem sortViolations_severity_order (vs : List Violation) :
    List.Perm (sortViolations vs) vs ∧
    List.Pairwise (fun a b => severityRank a.kind ≤ severityRank b.kind)
      (sortViolations vs) ∧
    (∀ k : VKind, (sortViolations vs).filter (fun v => v.kind == k)
        = vs.filter (fun v => v.kind == k)) ∧
    sortViolations
        [{ field := "temp", kind := VKind.checkFailed "in_range" },
         { field := "id", kind := VKind.wrongType }]
      = [{ field := "id", kind := VKind.wrongType },
         { field := "temp", kind := VKind.checkFailed "in_range" }] := by
  unfold sortViolations
  refine ⟨List.perm_insertionSort severityLeP vs, ?_, ?_, by decide⟩
  · exact List.sorted_insertionSort severityLeP vs
  · intro k
    have hmem : ∀ a ∈ vs.filter (fun v => v.kind == k), (fun v => v.kind == k) a = true :=
      fun a ha => (List.mem_filter.mp ha).2
    have hpw : (vs.filter (fun v => v.kind == k)).Pairwise severityLeP := by
      refine List.pairwise_of_forall_mem_list ?_
      intro a ha b hb
      have hak : a.kind = k := by have := (List.mem_filter.mp ha).2; simpa using this
      have hbk : b.kind = k := by have := (List.mem_filter.mp hb).2; simpa using this
      unfold severityLeP
      rw [hak, hbk]
    have hsub : (vs.filter (fun v => v.kind == k)).Sublist
        (List.insertionSort severityLeP vs) :=
      List.sublist_insertionSort hpw (List.filter_sublist vs)
    have hBA : (vs.filter (fun v => v.kind == k)).Sublist
        ((List.insertionSort severityLeP vs).filter (fun v => v.kind == k)) := by
      have h2 := List.Sublist.filter (fun v => v.kind == k) hsub
      rwa [List.filter_eq_self.mpr hmem] at h2
    have hlen : ((List.insertionSort severityLeP vs).filter (fun v => v.kind == k)).length
        = (vs.filter (fun v => v.kind == k)).length :=
      (List.Perm.filter (fun v => v.kind == k)
        (List.perm_insertionSort severityLeP vs)).length_eq
    exact (hBA.eq_of_length hlen.symm).symm

/-- Helper: when any referenced contract fails to resolve and compile, the
compilation pass over the reference list aborts with an error. -/
theorem compileReferenced_error_of_fails (cdocs : List (String × ContractDoc)) :
    ∀ names : List String, names.any (referenceFails cdocs) = true →
      ∃ e, compileReferenced cdocs names = Except.error e := by
  intro names
  induction names with
  | nil => simp
  | cons n rest ih =>
      intro h
      unfold compileReferenced
      cases hl : List.lookup n cdocs with
      | none => exact ⟨_, rfl⟩
      | some d =>
          dsimp only
          cases hc : compileContract d with
          | error e => exact ⟨e, rfl⟩
          | ok c =>
              dsimp only
              have hrf : referenceFails cdocs n = false := by
                unfold referenceFails
                rw [hl]
                dsimp only
                rw [hc]
              rw [List.any_cons, hrf, Bool.false_or] at h
              rcases ih h with ⟨e2, he⟩
              rw [he]
              exact ⟨e2, rfl⟩

/-- Claim C6: a reload in which at least one referenced contract fails to
resolve or compile returns an error and leaves the live snapshot (the
Mapping Table and the active contracts) completely unchanged, so every
message validated after the failed reload sees exactly the pre-reload
configuration. -/
theorem reload_failure_atomic (mdoc : List MappingEntry)
    (cdocs : List (String × ContractDoc)) (live : Snapshot)
    (h : (mdoc.map MappingEntry.contractName).any (referenceFails cdocs) = true) :
    (∃ e, (reloadEngine mdoc cdocs live).fst = Except.error e) ∧
    (reloadEngine mdoc cdocs live).snd = live := by
  rcases compileReferenced_error_of_fails cdocs _ h with ⟨e, he⟩
  unfold reloadEngine
  rw [he]
  exact ⟨⟨e, rfl⟩, rfl⟩

/-- Witness for claim C6: a reload naming three contracts of which the
second has an unknown dtype token fails and leaves the live snapshot as it
was. -/
theorem reload_failure_atomic_witness :
    (∃ e, (reloadEngine exampleMappings exampleContractDocs exampleLiveSnapshot).fst
        = Except.error e) ∧
    (reloadEngine exampleMappings exampleContractDocs exampleLiveSnapshot).snd
        = exampleLiveSnapshot :=
  reload_failure_atomic exampleMappings exampleContractDocs exampleLiveSnapshot (by decide)

end DataValidation
